import Mathlib

/-!
# Verification of the tap-monday pagination/retry core

Shallow embedding of `src/tap_monday/client.py`, `src/tap_monday/streams.py`
and `src/tap_monday/tap.py`.

Python dictionaries are modelled as ordered association lists over a JSON-like
value type; the pagination driver `MondayStream.request_records` is modelled as
a fuel-indexed recursion over an abstract stream simulation (the fuel only
bounds the number of pages fetched; every theorem supplies enough fuel).
Page tokens are `Option Int` (`none` = Python `None`); Python truthiness of a
token (`None` and `0` are falsy) is `tokenTruthy`.
-/

set_option autoImplicit false

namespace TapMonday

/-- JSON-like values, modelling the Python objects that flow through the tap:
strings, ints, floats (as rationals), booleans, `None`, lists and dicts
(ordered association lists, as Python dicts preserve insertion order). -/
inductive Value where
  | s : String → Value
  | i : Int → Value
  | f : Rat → Value
  | b : Bool → Value
  | null : Value
  | list : List Value → Value
  | dict : List (String × Value) → Value

/-- A Python dict: ordered key/value pairs. -/
abbrev Dict := List (String × Value)

/-- `d[k]` lookup: first binding of `k`, `none` models a `KeyError`. -/
def dictGet (d : Dict) (k : String) : Option Value :=
  match d with
  | [] => none
  | (k', v) :: rest => if k' = k then some v else dictGet rest k

/-- `d[k] = v` assignment: replaces the existing binding in place (Python
dicts keep the original insertion position), else appends. -/
def dictSet (d : Dict) (k : String) (v : Value) : Dict :=
  match d with
  | [] => [(k, v)]
  | (k', v') :: rest =>
      if k' = k then (k', v) :: rest else (k', v') :: dictSet rest k v

/-- Project a `Value` to a dict; `none` models a Python `TypeError`. -/
def asDict : Value → Option Dict
  | .dict d => some d
  | _ => none

/-- Project a `Value` to a list; `none` models a Python `TypeError`. -/
def asList : Value → Option (List Value)
  | .list l => some l
  | _ => none

/-- `v[k]` on a `Value` that should be a dict. -/
def vGet (v : Value) (k : String) : Option Value := do
  let d ← asDict v
  dictGet d k

/-- Accumulate the value of a run of decimal digits (48 is the code of '0');
a non-digit character raises, modelled as `none`. -/
def parseDecDigits : List Char → Nat → Option Nat
  | [], acc => some acc
  | c :: cs, acc =>
    if c.isDigit then parseDecDigits cs (acc * 10 + (c.toNat - 48))
    else none

/-- Python `int(str)` on the decimal strings the API delivers: an optional
sign followed by at least one decimal digit; anything else raises
(`ValueError`), modelled as `none`. -/
def pyIntOfChars : List Char → Option Int
  | [] => none
  | '-' :: cs =>
    if cs.isEmpty then none
    else (parseDecDigits cs 0).map (fun n => -(n : Int))
  | '+' :: cs =>
    if cs.isEmpty then none
    else (parseDecDigits cs 0).map (fun n => (n : Int))
  | cs => (parseDecDigits cs 0).map (fun n => (n : Int))

/-- Python `int(x)` as used by the streams: decimal strings parse, ints pass
through, floats truncate toward zero, booleans cast to 0/1; anything else
(and unparsable strings) raises, modelled as `none`. -/
def pyInt : Value → Option Int
  | .s str => pyIntOfChars str.data
  | .i n => some n
  | .f q => some (q.num.tdiv (q.den : Int))
  | .b bv => some (if bv then 1 else 0)
  | _ => none

/-- The value of a decimal numeral split at its point: integer digits
`intPart` and fractional digits `fracPart` denote
`(intPart·10^m + fracPart) / 10^m` with `m = fracPart.length`; at least one
digit must be present overall (Python accepts `"3"`, `"2.5"`, `".5"`,
`"1."` but not `""` or `"."`). -/
def pyFloatOfDigits (intPart fracPart : List Char) : Option Rat :=
  if intPart.isEmpty && fracPart.isEmpty then none
  else do
    let ip ← parseDecDigits intPart 0
    let fp ← parseDecDigits fracPart 0
    pure (mkRat (ip * 10 ^ fracPart.length + fp) (10 ^ fracPart.length))

/-- An unsigned decimal numeral: digits, optionally a point and more digits.
Exponent, `inf` and `nan` forms (which the API never produces) raise like any
other malformed string, modelled as `none`. -/
def pyFloatOfUnsigned (cs : List Char) : Option Rat :=
  let intPart := cs.takeWhile Char.isDigit
  match cs.dropWhile Char.isDigit with
  | [] => pyFloatOfDigits intPart []
  | '.' :: frac =>
    if frac.all Char.isDigit then pyFloatOfDigits intPart frac else none
  | _ => none

/-- Python `float(str)`: an optional sign followed by a decimal numeral. -/
def pyFloatOfChars : List Char → Option Rat
  | '-' :: cs => (pyFloatOfUnsigned cs).map (fun q => -q)
  | '+' :: cs => pyFloatOfUnsigned cs
  | cs => pyFloatOfUnsigned cs

/-- Python `float(x)` as used by `GroupsStream.post_process`: numeric strings
parse (the API delivers `position` as a string, which is the point of the
coercion), ints widen, floats pass through, booleans cast; non-numeric
strings and other types raise, modelled as `none`. -/
def pyFloat : Value → Option Rat
  | .s str => pyFloatOfChars str.data
  | .i n => some (n : Rat)
  | .f q => some q
  | .b bv => some (if bv then 1 else 0)
  | _ => none

/-! ## The pagination driver (`client.py`, `MondayStream.request_records`) -/

/-- Errors that can escape one call of `decorated_request` inside the driver
loop: a `requests.exceptions.ConnectionError` (which the driver catches), or
any other exception — `FatalAPIError`, a `RetriableAPIError` or `ReadTimeout`
that exhausted the backoff retries — which propagates out of the generator. -/
inductive ReqErr where
  | connError : ReqErr
  | raised : ReqErr
deriving DecidableEq

/-- Abstract simulation of one stream instance bound to one context:
`fetch` yields the (decorated) request outcome for a page token,
`parse` is `parse_response`, `nextTok` is `get_next_page_token`. -/
structure StreamSim (ρ α : Type) where
  fetch : Option Int → Except ReqErr ρ
  parse : ρ → List α
  nextTok : ρ → Option Int → Option Int

/-- Python truthiness of a page token: `None` and `0` are falsy. -/
def tokenTruthy : Option Int → Bool
  | none => false
  | some n => n != 0

/-- How one run of `request_records` ends. -/
inductive Outcome where
  | done : Outcome
  /-- the `RuntimeError("Loop detected in pagination...")` branch -/
  | loopError : Outcome
  /-- a `ConnectionError` was caught; `return self.request_records(context)`
  inside a generator discards the fresh generator and just stops iteration,
  so the run ends here with only the records already yielded -/
  | connAborted : Outcome
  /-- some other exception propagated out of `decorated_request` -/
  | errored : Outcome
  /-- fuel exhausted (never reached by the theorems below) -/
  | fuelOut : Outcome
deriving DecidableEq

/-- The records a run of `request_records` yields, and how it ends. -/
structure RunResult (α : Type) where
  emitted : List α
  outcome : Outcome

/-- `MondayStream.request_records` (client.py lines 66–110), fuel-indexed.
Each iteration: fetch the page for the current token; on `ConnectionError`
the generator executes `return self.request_records(context=context)`, which
merely constructs a generator and ends iteration (no further records);
otherwise yield every parsed row, compute the next token, raise the
pagination-loop `RuntimeError` if the truthy new token equals the previous
one, and finish when the new token is falsy. -/
def request_records {ρ α : Type} (S : StreamSim ρ α) : Nat → Option Int → RunResult α
  | 0, _ => ⟨[], .fuelOut⟩
  | fuel + 1, next_page_token =>
    match S.fetch next_page_token with
    | .error .connError => ⟨[], .connAborted⟩
    | .error .raised => ⟨[], .errored⟩
    | .ok resp =>
      let rows := S.parse resp
      let previous_token := next_page_token
      let next := S.nextTok resp previous_token
      if tokenTruthy next && decide (next = previous_token) then
        ⟨rows, .loopError⟩
      else if tokenTruthy next then
        let r := request_records S fuel next
        ⟨rows ++ r.emitted, r.outcome⟩
      else
        ⟨rows, .done⟩

/-- Strict token increase, with the initial empty token below everything. -/
def tokLt : Option Int → Option Int → Prop
  | none, _ => True
  | some _, none => False
  | some a, some b => a < b

/-- A well-behaved finite page sequence starting at a given token: every
fetch succeeds, each page's computed token is strictly greater than the
token it was fetched with, and the final page's computed token is falsy.
The `List α` collects the pages' records in order; the `Nat` counts pages. -/
inductive Chain {ρ α : Type} (S : StreamSim ρ α) : Option Int → List α → Nat → Prop where
  | last : ∀ tok resp, S.fetch tok = .ok resp →
      tokenTruthy (S.nextTok resp tok) = false →
      Chain S tok (S.parse resp) 1
  | step : ∀ tok resp rest n, S.fetch tok = .ok resp →
      tokenTruthy (S.nextTok resp tok) = true →
      tokLt tok (S.nextTok resp tok) →
      Chain S (S.nextTok resp tok) rest n →
      Chain S tok (S.parse resp ++ rest) (n + 1)

theorem tokLt_ne {a b : Option Int} (h : tokLt a b) (hb : tokenTruthy b = true) :
    b ≠ a := by
  cases a with
  | none => cases b with
    | none => simp [tokenTruthy] at hb
    | some b' => simp
  | some a' => cases b with
    | none => simp [tokLt] at h
    | some b' =>
      simp only [tokLt] at h
      intro heq
      rw [Option.some_inj] at heq
      omega

/-- A two-page stream: the first page carries records `1, 2` and computes
token `2`; fetching with token `2` yields record `3` and an empty token.
A response here is simply the pair (records, computed next token). -/
def pagesFixture : StreamSim (List Nat × Option Int) Nat where
  fetch := fun t =>
    match t with
    | none => .ok ([1, 2], some 2)
    | some 2 => .ok ([3], none)
    | _ => .error .raised
  parse := fun r => r.1
  nextTok := fun r _ => r.2

/-- A stream whose second page computes the same token (`5`) it was fetched
with, so the pagination-loop guard fires there. -/
def loopFixture : StreamSim (List Nat × Option Int) Nat where
  fetch := fun t =>
    match t with
    | none => .ok ([7], some 5)
    | some 5 => .ok ([8], some 5)
    | _ => .error .raised
  parse := fun r => r.1
  nextTok := fun r _ => r.2

/-- A stream whose first page succeeds with records `1, 2` and token `2`,
and whose second fetch raises a `ConnectionError` every time. -/
def connFixture : StreamSim (List Nat × Option Int) Nat where
  fetch := fun t =>
    match t with
    | none => .ok ([1, 2], some 2)
    | some 2 => .error .connError
    | _ => .error .raised
  parse := fun r => r.1
  nextTok := fun r _ => r.2

/-- C1: for every finite sequence of pages whose computed tokens are strictly
increasing until a page computes an empty token, `request_records` emits every
record of every page, pages in order, and terminates in the `DONE` state. -/
theorem c1_driver_emits_all_pages_in_order {ρ α : Type} (S : StreamSim ρ α)
    (tok : Option Int) (out : List α) (n : Nat) (hc : Chain S tok out n) :
    ∀ fuel, n ≤ fuel → request_records S fuel tok = ⟨out, Outcome.done⟩ := by
  induction hc with
  | last tok resp hfetch hfalsy =>
    intro fuel hfuel
    obtain ⟨f, rfl⟩ : ∃ f, fuel = f + 1 := ⟨fuel - 1, by omega⟩
    simp [request_records, hfetch, hfalsy]
  | step tok resp rest n hfetch htruthy hlt hrest ih =>
    intro fuel hfuel
    obtain ⟨f, rfl⟩ : ∃ f, fuel = f + 1 := ⟨fuel - 1, by omega⟩
    have hne : S.nextTok resp tok ≠ tok := tokLt_ne hlt htruthy
    simp [request_records, hfetch, htruthy, hne, ih f (by omega)]

/-- C1 witness: the two-page fixture forms a strictly increasing chain, and
running the driver on it emits `[1, 2, 3]` and ends `done`. -/
theorem c1_witness :
    request_records pagesFixture 2 none = ⟨[1, 2, 3], Outcome.done⟩ := by
  have hchain : Chain pagesFixture none [1, 2, 3] 2 :=
    Chain.step none ([1, 2], some 2) [3] 1 rfl rfl trivial
      (Chain.last (some 2) ([3], none) rfl rfl)
  exact c1_driver_emits_all_pages_in_order pagesFixture none [1, 2, 3] 2 hchain 2
    (Nat.le_refl 2)

/-- C2: on an iteration whose fetch succeeds, the driver raises the
pagination-loop `RuntimeError` exactly when the newly computed token is
truthy and equals the previous token (emitting that page's rows but nothing
further); when the new token is falsy it finishes `done`, and when the new
token is truthy but different it continues without raising. -/
theorem c2_loop_guard_raises_iff_tokens_equal {ρ α : Type} (S : StreamSim ρ α)
    (fuel : Nat) (tok : Option Int) (resp : ρ)
    (hfetch : S.fetch tok = .ok resp) :
    (tokenTruthy (S.nextTok resp tok) = true → S.nextTok resp tok = tok →
      request_records S (fuel + 1) tok = ⟨S.parse resp, Outcome.loopError⟩) ∧
    (tokenTruthy (S.nextTok resp tok) = false →
      request_records S (fuel + 1) tok = ⟨S.parse resp, Outcome.done⟩) ∧
    (tokenTruthy (S.nextTok resp tok) = true → S.nextTok resp tok ≠ tok →
      request_records S (fuel + 1) tok =
        ⟨S.parse resp ++ (request_records S fuel (S.nextTok resp tok)).emitted,
          (request_records S fuel (S.nextTok resp tok)).outcome⟩) := by
  refine ⟨fun ht he => ?_, fun hf => ?_, fun ht hne => ?_⟩
  · rw [he] at ht
    simp [request_records, hfetch, he, ht]
  · simp [request_records, hfetch, hf]
  · simp [request_records, hfetch, ht, hne]

/-- C2 witness: on the looping fixture the guard fires at token `5`:
the second page's record is emitted and the run ends with the loop error. -/
theorem c2_witness :
    request_records loopFixture 2 (some 5) = ⟨[8], Outcome.loopError⟩ :=
  (c2_loop_guard_raises_iff_tokens_equal loopFixture 1 (some 5) ([8], some 5)
    rfl).1 rfl rfl

/-- C3: what the code actually does on a connection-level failure. Inside the
generator, `return self.request_records(context=context)` constructs a new
generator and discards it, ending iteration: the run emits only the pages
fetched before the failure, once, and nothing is re-emitted. -/
theorem c3_connection_error_ends_generator_without_restart :
    request_records connFixture 5 none = ⟨[1, 2], Outcome.connAborted⟩ := rfl

/-! ## Response validation (`streams.py`, `BoardsStream.validate_response`) -/

/-- What `validate_response` does for a status code: return normally, raise
`FatalAPIError`, or raise `RetriableAPIError`. -/
inductive ValidationOutcome where
  | ok : ValidationOutcome
  | fatalError : ValidationOutcome
  | retriableError : ValidationOutcome
deriving DecidableEq

/-- `BoardsStream.validate_response` (streams.py 138–157): status 408 raises
`RetriableAPIError`; otherwise 400 ≤ s < 500 raises `FatalAPIError`;
otherwise 500 ≤ s < 600 raises `RetriableAPIError`; otherwise it returns. -/
def validate_response (status_code : Nat) : ValidationOutcome :=
  if status_code = 408 then .retriableError
  else if 400 ≤ status_code ∧ status_code < 500 then .fatalError
  else if 500 ≤ status_code ∧ status_code < 600 then .retriableError
  else .ok

/-- C4: `validate_response` raises a fatal error exactly on client-error
statuses other than 408, a retryable error exactly on 408 and server-error
statuses, and nothing otherwise. -/
theorem c4_validate_response_classification (s : Nat) :
    (validate_response s = .fatalError ↔ (400 ≤ s ∧ s < 500 ∧ s ≠ 408)) ∧
    (validate_response s = .retriableError ↔ (s = 408 ∨ (500 ≤ s ∧ s < 600))) ∧
    (validate_response s = .ok ↔ ¬(400 ≤ s ∧ s < 600)) := by
  unfold validate_response
  split_ifs with h1 h2 h3 <;> simp_all <;> omega

/-- C4 witness: 404 is classified fatal. -/
theorem c4_witness : validate_response 404 = .fatalError :=
  (c4_validate_response_classification 404).1.mpr (by decide)

/-! ## The retry decorator (`client.py`, `MondayStream.request_decorator`) -/

/-- The outcome of one attempted call of `self._request`: a successful
response, or one of the exceptions it can raise. -/
inductive AttemptOutcome (ρ : Type) where
  | ok : ρ → AttemptOutcome ρ
  | retriableErr : AttemptOutcome ρ
  | readTimeout : AttemptOutcome ρ
  | fatalErr : AttemptOutcome ρ
  | connErr : AttemptOutcome ρ
deriving DecidableEq

/-- The exception tuple `(RetriableAPIError, requests.exceptions.ReadTimeout)`
passed to `backoff.on_exception`: only these outcomes are retried. -/
def retriesOn {ρ : Type} : AttemptOutcome ρ → Bool
  | .retriableErr => true
  | .readTimeout => true
  | _ => false

/-- `backoff.expo`: the n-th wait is `factor * base ^ n`. -/
def backoff_expo (base factor n : Nat) : Nat := factor * base ^ n

/-- The retry loop of `backoff.on_exception`: call attempt `i`; when the
outcome is in the retry set and more calls remain (`fuel > 0`), wait and call
again, else return the outcome together with the number of calls made.
Called with `fuel = max_tries - 1` so at most `max_tries` calls happen;
`max_tries` is always positive here (the source fixes it to 20). -/
def backoffGo {ρ : Type} (retryOn : AttemptOutcome ρ → Bool)
    (f : Nat → AttemptOutcome ρ) : Nat → Nat → Nat × AttemptOutcome ρ
  | 0, i => (i + 1, f i)
  | fuel + 1, i =>
    let r := f i
    if retryOn r then backoffGo retryOn f fuel (i + 1) else (i + 1, r)

/-- Run a `backoff.on_exception`-decorated callable: attempt outcomes are
given per call index; result is (calls made, final outcome). -/
def runWithRetry {ρ : Type} (retryOn : AttemptOutcome ρ → Bool) (maxTries : Nat)
    (f : Nat → AttemptOutcome ρ) : Nat × AttemptOutcome ρ :=
  backoffGo retryOn f (maxTries - 1) 0

/-- `MondayStream.request_decorator` (client.py 34–55):
`backoff.on_exception(backoff.expo, (RetriableAPIError, ReadTimeout),
max_tries=20, factor=2)`. -/
def request_decorator {ρ : Type} (f : Nat → AttemptOutcome ρ) :
    Nat × AttemptOutcome ρ :=
  runWithRetry retriesOn 20 f

/-- The wait before retry `n` under `request_decorator`:
`backoff.expo` with its default base 2 and the configured factor 2. -/
def request_decorator_wait (n : Nat) : Nat := backoff_expo 2 2 n

theorem backoffGo_all_retriable {ρ : Type} (f : Nat → AttemptOutcome ρ)
    (hall : ∀ i, f i = .retriableErr) :
    ∀ fuel i, backoffGo retriesOn f fuel i = (i + fuel + 1, .retriableErr) := by
  intro fuel
  induction fuel with
  | zero => intro i; simp [backoffGo, hall i]
  | succ fuel ih =>
    intro i
    simp only [backoffGo, hall i, retriesOn, if_pos]
    rw [ih (i + 1)]
    congr 1
    omega

theorem backoffGo_calls_bound {ρ : Type} (retryOn : AttemptOutcome ρ → Bool)
    (f : Nat → AttemptOutcome ρ) :
    ∀ fuel i n out, backoffGo retryOn f fuel i = (n, out) →
      n ≤ i + fuel + 1 ∧ ∀ j, i ≤ j → j + 1 < n → retryOn (f j) = true := by
  intro fuel
  induction fuel with
  | zero =>
    intro i n out h
    simp only [backoffGo] at h
    obtain ⟨rfl, rfl⟩ : n = i + 1 ∧ out = f i := by
      constructor <;> [exact (Prod.mk.injEq _ _ _ _ ▸ h).1.symm;
        exact (Prod.mk.injEq _ _ _ _ ▸ h).2.symm]
    exact ⟨by omega, fun j hij hlt => by omega⟩
  | succ fuel ih =>
    intro i n out h
    simp only [backoffGo] at h
    by_cases hr : retryOn (f i) = true
    · rw [if_pos hr] at h
      obtain ⟨hb, hrest⟩ := ih (i + 1) n out h
      refine ⟨by omega, fun j hij hlt => ?_⟩
      rcases Nat.eq_or_lt_of_le hij with rfl | hij'
      · exact hr
      · exact hrest j hij' hlt
    · rw [if_neg hr] at h
      obtain ⟨rfl, rfl⟩ : n = i + 1 ∧ out = f i := by
        constructor <;> [exact (Prod.mk.injEq _ _ _ _ ▸ h).1.symm;
          exact (Prod.mk.injEq _ _ _ _ ▸ h).2.symm]
      exact ⟨by omega, fun j hij hlt => by omega⟩

/-- C5: the decorator retries only on retryable-classified errors and read
timeouts, makes at most 20 calls, surfaces the error after the 20th failing
call, propagates fatal and connection errors immediately without retry, and
waits exponentially with factor 2. -/
theorem c5_request_decorator_retry_policy {ρ : Type} (f : Nat → AttemptOutcome ρ) :
    (∀ r, f 0 = .ok r → request_decorator f = (1, .ok r)) ∧
    (f 0 = .fatalErr → request_decorator f = (1, .fatalErr)) ∧
    (f 0 = .connErr → request_decorator f = (1, .connErr)) ∧
    ((∀ i, f i = .retriableErr) → request_decorator f = (20, .retriableErr)) ∧
    (∀ n out, request_decorator f = (n, out) →
      n ≤ 20 ∧ ∀ i, i + 1 < n → f i = .retriableErr ∨ f i = .readTimeout) ∧
    (∀ n, request_decorator_wait n = 2 * 2 ^ n) := by
  refine ⟨fun r h0 => ?_, fun h0 => ?_, fun h0 => ?_, fun hall => ?_,
    fun n out h => ?_, fun n => rfl⟩
  · simp [request_decorator, runWithRetry, backoffGo, h0, retriesOn]
  · simp [request_decorator, runWithRetry, backoffGo, h0, retriesOn]
  · simp [request_decorator, runWithRetry, backoffGo, h0, retriesOn]
  · have := backoffGo_all_retriable f hall 19 0
    simpa [request_decorator, runWithRetry] using this
  · obtain ⟨hb, hr⟩ := backoffGo_calls_bound retriesOn f 19 0 n out h
    refine ⟨by omega, fun i hlt => ?_⟩
    have := hr i (Nat.zero_le i) hlt
    cases hfi : f i <;> simp [retriesOn, hfi] at this <;> simp

/-- C5 witness: a callable that always raises a retryable error is called 20
times and the error then surfaces. -/
theorem c5_witness :
    request_decorator (fun _ => (AttemptOutcome.retriableErr : AttemptOutcome Nat))
      = (20, .retriableErr) :=
  (c5_request_decorator_retry_policy
    (fun _ => (AttemptOutcome.retriableErr : AttemptOutcome Nat))).2.2.2.1
    (fun _ => rfl)

/-! ## The boards stream (`streams.py`, `BoardsStream`) -/

/-- `BoardsStream.parse_response` (streams.py 117–120): yield every element
of `resp_json["data"]["boards"]`; `none` models a `KeyError`/`TypeError` on a
malformed payload. -/
def boards_parse_response (resp : Value) : Option (List Value) := do
  let data ← vGet resp "data"
  let boards ← vGet data "boards"
  asList boards

/-- `BoardsStream.get_next_page_token` (streams.py 128–136):
`current_page = previous_token if previous_token is not None else 1`; the next
token is `current_page + 1` when the boards list is exactly `board_limit`
long, else `None`. The outer `Option` models exceptions on malformed
payloads. -/
def boards_get_next_page_token (resp : Value) (previous_token : Option Int)
    (board_limit : Nat) : Option (Option Int) := do
  let data ← vGet resp "data"
  let boards ← vGet data "boards"
  let l ← asList boards
  let current_page := previous_token.getD 1
  pure (if l.length = board_limit then some (current_page + 1) else none)

/-- A well-formed boards payload `{"data": {"boards": rows}}`. -/
def boardsResponse (rows : List Value) : Value :=
  .dict [("data", .dict [("boards", .list rows)])]

theorem boards_parse_boardsResponse (rows : List Value) :
    boards_parse_response (boardsResponse rows) = some rows := rfl

theorem boards_next_boardsResponse (rows : List Value) (prev : Option Int)
    (limit : Nat) :
    boards_get_next_page_token (boardsResponse rows) prev limit =
      some (if rows.length = limit then some (prev.getD 1 + 1) else none) := by
  simp [boards_get_next_page_token, boardsResponse, vGet, asDict, dictGet, asList]

/-- The `BoardsStream` instance of the driver simulation: a server delivers
the decoded boards list per token; parsing and token computation defer to the
stream's own functions on the corresponding payload. -/
def boardsSim (server : Option Int → Except ReqErr (List Value))
    (board_limit : Nat) : StreamSim (List Value) Value where
  fetch := server
  parse := fun rows => (boards_parse_response (boardsResponse rows)).getD []
  nextTok := fun rows prev =>
    (boards_get_next_page_token (boardsResponse rows) prev board_limit).getD none

theorem boardsSim_parse (server : Option Int → Except ReqErr (List Value))
    (limit : Nat) (rows : List Value) :
    (boardsSim server limit).parse rows = rows := rfl

theorem boardsSim_nextTok (server : Option Int → Except ReqErr (List Value))
    (limit : Nat) (rows : List Value) (prev : Option Int) :
    (boardsSim server limit).nextTok rows prev =
      if rows.length = limit then some (prev.getD 1 + 1) else none := by
  show (boards_get_next_page_token (boardsResponse rows) prev limit).getD none = _
  rw [boards_next_boardsResponse]
  rfl

/-- C6: with a positive `board_limit`, an empty boards page makes
`get_next_page_token` return `None`, and the driver finishes `done` right
after that page, emitting no record for it and issuing no further request. -/
theorem c6_empty_page_terminates
    (server : Option Int → Except ReqErr (List Value))
    (board_limit fuel : Nat) (tok : Option Int)
    (hlim : 0 < board_limit) (hfetch : server tok = .ok []) :
    boards_get_next_page_token (boardsResponse []) tok board_limit = some none ∧
    request_records (boardsSim server board_limit) (fuel + 1) tok
      = ⟨[], Outcome.done⟩ := by
  have hnext : (boardsSim server board_limit).nextTok [] tok = none := by
    rw [boardsSim_nextTok]
    simp
    omega
  constructor
  · rw [boards_next_boardsResponse]
    simp
    omega
  · have hfetch' : (boardsSim server board_limit).fetch tok = .ok [] := hfetch
    have hparse : (boardsSim server board_limit).parse [] = [] := rfl
    simp [request_records, hfetch', hnext, hparse, tokenTruthy]

/-- C6 witness: a server that always answers with an empty boards page, with
`board_limit = 1`: the computed token is `None` and one iteration ends the
run in `done` with nothing emitted. -/
theorem c6_witness :
    boards_get_next_page_token (boardsResponse []) none 1 = some none ∧
    request_records (boardsSim (fun _ => .ok []) 1) 1 none
      = ⟨[], Outcome.done⟩ :=
  c6_empty_page_terminates (fun _ => .ok []) 1 0 none (by decide) rfl

theorem boardsSim_no_loopError (server : Option Int → Except ReqErr (List Value))
    (board_limit : Nat) :
    ∀ fuel tok,
      (request_records (boardsSim server board_limit) fuel tok).outcome
        ≠ Outcome.loopError := by
  intro fuel
  induction fuel with
  | zero => intro tok; simp [request_records]
  | succ fuel ih =>
    intro tok
    simp only [request_records]
    cases hres : (boardsSim server board_limit).fetch tok with
    | error e => cases e <;> simp
    | ok rows =>
      have hguard :
          (tokenTruthy ((boardsSim server board_limit).nextTok rows tok)
            && decide ((boardsSim server board_limit).nextTok rows tok = tok))
            = false := by
        rw [boardsSim_nextTok]
        by_cases hl : rows.length = board_limit
        · rw [if_pos hl]
          cases tok with
          | none => simp
          | some p =>
            have hps : (some (p + 1) : Option Int) ≠ some p := by
              intro hcontra
              rw [Option.some_inj] at hcontra
              omega
            simp [hps]
        · simp [if_neg hl, tokenTruthy]
      simp only [hguard, Bool.false_eq_true, if_false]
      split
      · simp only []
        exact ih _
      · simp

/-- C10: `BoardsStream.get_next_page_token` only ever returns `None` or the
previous token plus one (an absent previous token counting as 1); a truthy
returned token is strictly greater than a non-empty previous one; hence a
driver run over this stream never reaches the pagination-loop `RuntimeError`. -/
theorem c10_boards_loop_guard_unreachable
    (server : Option Int → Except ReqErr (List Value)) (board_limit : Nat) :
    (∀ resp prev t, boards_get_next_page_token resp prev board_limit = some t →
      t = none ∨ t = some (prev.getD 1 + 1)) ∧
    (∀ p resp t,
      boards_get_next_page_token resp (some p) board_limit = some t →
      tokenTruthy t = true → ∃ q, t = some q ∧ p < q) ∧
    (∀ fuel tok,
      (request_records (boardsSim server board_limit) fuel tok).outcome
        ≠ Outcome.loopError) := by
    refine ⟨fun resp prev t h => ?_, fun p resp t h ht => ?_,
      boardsSim_no_loopError server board_limit⟩
    · simp only [boards_get_next_page_token, Option.bind_eq_bind,
        Option.pure_def, Option.bind_eq_some] at h
      obtain ⟨d, hd, b, hb, l, hl, hres⟩ := h
      rw [Option.some_inj] at hres
      subst hres
      split <;> simp
    · simp only [boards_get_next_page_token, Option.bind_eq_bind,
        Option.pure_def, Option.bind_eq_some] at h
      obtain ⟨d, hd, b, hb, l, hl, hres⟩ := h
      rw [Option.some_inj] at hres
      subst hres
      by_cases hlen : l.length = board_limit
      · simp only [if_pos hlen]
        exact ⟨p + 1, rfl, by omega⟩
      · rw [if_neg hlen] at ht
        simp [tokenTruthy] at ht

/-- C10 witness: a concrete boards run (two full pages then a short one)
never hits the loop error, and the token after previous token 1 is 2. -/
theorem c10_witness :
    (request_records
        (boardsSim
          (fun t =>
            match t with
            | none => .ok [Value.i 1, Value.i 2]
            | some 2 => .ok [Value.i 3]
            | _ => .ok []) 2) 5 none).outcome ≠ Outcome.loopError ∧
    (∃ q, (some (2 : Int)) = some q ∧ (1 : Int) < q) :=
  ⟨(c10_boards_loop_guard_unreachable
      (fun t =>
        match t with
        | none => .ok [Value.i 1, Value.i 2]
        | some 2 => .ok [Value.i 3]
        | _ => .ok []) 2).2.2 5 none,
    (c10_boards_loop_guard_unreachable (fun _ => .ok []) 2).2.1 1
      (boardsResponse [Value.i 1, Value.i 2]) (some 2) rfl rfl⟩

/-! ## Per-record post-processing (`streams.py`) -/

theorem dictGet_dictSet_self (d : Dict) (k : String) (v : Value) :
    dictGet (dictSet d k v) k = some v := by
  induction d with
  | nil => simp [dictSet, dictGet]
  | cons kv rest ih =>
    obtain ⟨k', v'⟩ := kv
    by_cases hk : k' = k
    · simp [dictSet, dictGet, hk]
    · simp [dictSet, dictGet, hk, ih]

/-- `BoardsStream.post_process` (streams.py 122–126):
`row["id"] = int(row["id"])`, then `item["id"] = int(item["id"])` for every
element of `row["items"]` (in-place mutation of the shared item dicts is
modelled by rebuilding the list). `none` models a raised
`KeyError`/`ValueError`/`TypeError`. -/
def boards_post_process (row : Dict) : Option Dict := do
  let idv ← dictGet row "id"
  let idn ← pyInt idv
  let row1 := dictSet row "id" (.i idn)
  let itemsv ← dictGet row1 "items"
  let items ← asList itemsv
  let items1 ← items.mapM (fun item => do
    let d ← asDict item
    let iv ← dictGet d "id"
    let ii ← pyInt iv
    pure (Value.dict (dictSet d "id" (.i ii))))
  pure (dictSet row1 "items" (.list items1))

/-- `GroupsStream.post_process` (streams.py 244–247):
`row["position"] = float(row["position"]); row["board_id"] =
context["board_id"]`. -/
def groups_post_process (row : Dict) (context : Dict) : Option Dict := do
  let p ← dictGet row "position"
  let pf ← pyFloat p
  let row1 := dictSet row "position" (.f pf)
  let b ← dictGet context "board_id"
  pure (dictSet row1 "board_id" b)

/-- `ColumnsStream.post_process` (streams.py 297–299):
`row["board_id"] = context["board_id"]`. -/
def columns_post_process (row : Dict) (context : Dict) : Option Dict := do
  let b ← dictGet context "board_id"
  pure (dictSet row "board_id" b)

/-- `BoardViewsStream` overrides no `post_process`; the inherited SDK default
returns the row unchanged, so no context field is merged in. -/
def board_views_post_process (row : Dict) (_context : Dict) : Option Dict :=
  some row

/-- A board-views record as returned by the API: it has no `board_id` key. -/
def viewRowFixture : Dict :=
  [("id", .s "v1"), ("name", .s "Main"), ("type", .s "table"),
    ("settings_str", .s "")]

/-- A parent context derived from a boards record with id 42. -/
def boardContextFixture : Dict := [("board_id", .i 42)]

/-- C7 counterexample: the board-views child stream, invoked with context
`{"board_id": 42}`, emits its record unchanged and without any `board_id`
field, so not every child resource of boards merges the context's `board_id`
into its records. -/
theorem c7_counterexample_board_views_lack_board_id :
    board_views_post_process viewRowFixture boardContextFixture
      = some viewRowFixture ∧
    dictGet viewRowFixture "board_id" = none := ⟨rfl, rfl⟩

/-- C7 (amended): the Groups and Columns child streams merge the context's
`board_id` into every record they successfully post-process; BoardViews does
not. -/
theorem c7_groups_and_columns_merge_board_id (row context : Dict) (b : Value)
    (hb : dictGet context "board_id" = some b) :
    (∀ r, groups_post_process row context = some r →
      dictGet r "board_id" = some b) ∧
    (∀ r, columns_post_process row context = some r →
      dictGet r "board_id" = some b) := by
  constructor
  · intro r hr
    simp only [groups_post_process, Option.bind_eq_bind, Option.pure_def,
      Option.bind_eq_some, Option.some_inj] at hr
    obtain ⟨p, hp, pf, hpf, b', hb', hres⟩ := hr
    rw [hb] at hb'
    rw [Option.some_inj] at hb'
    subst hb'
    subst hres
    exact dictGet_dictSet_self _ _ _
  · intro r hr
    simp only [columns_post_process, Option.bind_eq_bind, Option.pure_def,
      Option.bind_eq_some, Option.some_inj] at hr
    obtain ⟨b', hb', hres⟩ := hr
    rw [hb] at hb'
    rw [Option.some_inj] at hb'
    subst hb'
    subst hres
    exact dictGet_dictSet_self _ _ _

/-- A groups record as returned by the API: `position` arrives as a numeric
string, the input `float()` is there to coerce. -/
def groupRowFixture : Dict :=
  [("id", .s "g1"), ("title", .s "Group one"), ("position", .s "2.5"),
    ("color", .s "#037f4c")]

/-- C7 witness: post-processing the group fixture (string `position "2.5"`)
under context `{"board_id": 42}` yields a record whose `board_id` is 42, and
likewise for a columns record. -/
theorem c7_witness :
    dictGet ((groups_post_process groupRowFixture boardContextFixture).getD [])
      "board_id" = some (.i 42) ∧
    dictGet ((columns_post_process groupRowFixture boardContextFixture).getD [])
      "board_id" = some (.i 42) :=
  ⟨(c7_groups_and_columns_merge_board_id groupRowFixture boardContextFixture
      (.i 42) rfl).1 _ rfl,
    (c7_groups_and_columns_merge_board_id groupRowFixture boardContextFixture
      (.i 42) rfl).2 _ rfl⟩

/-! ## The Boards normalizer on the spec's example payload (C9) -/

/-- The payload `{"data": {"boards": [{"id": "1", "items": [{"id": "10"}]}]}}`. -/
def boardsPayloadFixture : Value :=
  .dict [("data", .dict [("boards", .list
    [.dict [("id", .s "1"), ("items", .list [.dict [("id", .s "10")]])]])])]

/-- The single raw row of that payload. -/
def boardRowFixture : Dict :=
  [("id", .s "1"), ("items", .list [.dict [("id", .s "10")]])]

/-- C9: on the example payload, `parse_response` yields exactly one row, and
`post_process` coerces its `id` to the integer 1 and its single nested item's
`id` to the integer 10. -/
theorem c9_boards_normalizer_coerces_ids :
    boards_parse_response boardsPayloadFixture = some [.dict boardRowFixture] ∧
    boards_post_process boardRowFixture
      = some [("id", .i 1), ("items", .list [.dict [("id", .i 10)]])] := by
  constructor <;> rfl

/-! ## The stream catalog (`tap.py`, C8) -/

/-- The stream classes `streams.py` actually defines. -/
def streams_defined_classes : List String :=
  ["WorkspacesStream", "BoardsStream", "BoardViewsStream", "GroupsStream",
    "ColumnsStream"]

/-- The names `tap.py` (lines 9–15) imports from `tap_monday.streams`. -/
def tap_imported_classes : List String :=
  ["WorkspacesStream", "BoardsStream", "BoardViewsStream", "GroupsStream",
    "ItemsStream"]

/-- `STREAM_TYPES` (tap.py lines 17–23). -/
def STREAM_TYPES : List String :=
  ["WorkspacesStream", "BoardsStream", "BoardViewsStream", "GroupsStream",
    "ItemsStream"]

/-- `TapMonday.discover_streams` (tap.py 39–41) instantiates one stream per
entry of `STREAM_TYPES`; evaluating it first requires the module imports to
resolve, and an import of a name `streams.py` does not define raises
`ImportError`, modelled as `none`. -/
def discover_streams : Option (List String) :=
  if tap_imported_classes.all (fun n => streams_defined_classes.contains n)
  then some STREAM_TYPES else none

/-- The six resource definitions the catalog is claimed to contain. -/
def claimed_catalog : List String :=
  ["WorkspacesStream", "BoardsStream", "BoardViewsStream", "GroupsStream",
    "ItemsStream", "ColumnsStream"]

/-- C8: the catalog does not contain the claimed six resource definitions:
`tap.py` imports `ItemsStream`, which `streams.py` never defines (so the tap
module fails to import at all), it omits the defined `ColumnsStream` from
`STREAM_TYPES`, and `STREAM_TYPES` has five entries, not six. -/
theorem c8_discover_streams_import_bug :
    discover_streams = none ∧
    "ItemsStream" ∈ tap_imported_classes ∧
    "ItemsStream" ∉ streams_defined_classes ∧
    "ColumnsStream" ∈ streams_defined_classes ∧
    "ColumnsStream" ∉ STREAM_TYPES ∧
    STREAM_TYPES.length = 5 ∧ claimed_catalog.length = 6 := by
  refine ⟨rfl, ?_, ?_, ?_, ?_, rfl, rfl⟩ <;> decide

end TapMonday
